import Mathlib

/-!
Verification of the gate-monitor add-on (`src/gate-monitor/gate_monitor.py`)
against its natural-language specification.

The development shallowly embeds the decision pipeline of the program:

* `parse_gate_response` — the three-tier response parser (markdown-fence
  stripping, `json.loads`, embedded-JSON regex search, keyword fallback);
* `analyze_gate` — the classifier call with threshold gating and the
  rate-limit retry/backoff loop, with the oracle modelled as a function from
  attempt number to outcome;
* `runCycle` — one iteration of the poll loop in `main`, including the
  open-confirmation / tiebreak state machine, with captures and
  classification results supplied as inputs.

Python strings are modelled as `List Char` / `String`; `int` as `Int`;
exceptions as explicit outcome constructors.  Unicode-specific behaviour of
`str.upper` / `str.strip` / `\s` is modelled on the ASCII subset, which is
what the program's own data exercises.
-/

/-- The backtick character (used by the markdown fence regexes). -/
def bt : Char := Char.ofNat 96

/-- Left brace character. -/
def lbrace : Char := Char.ofNat 123

/-- Right brace character. -/
def rbrace : Char := Char.ofNat 125

/-- Python `\s` / `str.strip` whitespace, ASCII subset:
space, tab, newline, carriage return, vertical tab, form feed. -/
def pyWs (c : Char) : Bool :=
  c == ' ' || c == '\t' || c == '\n' || c == '\r' ||
  c == Char.ofNat 11 || c == Char.ofNat 12

/-- JSON inter-token whitespace accepted by `json.loads`. -/
def jsonWs (c : Char) : Bool :=
  c == ' ' || c == '\t' || c == '\n' || c == '\r'

/-- Python `str.strip()` on a character list (ASCII whitespace). -/
def pyStripList (l : List Char) : List Char :=
  ((l.dropWhile pyWs).reverse.dropWhile pyWs).reverse

/-- Python `str.strip()` on strings. -/
def pyStrip (s : String) : String := (pyStripList s.data).asString

/-- After the opening "```" of a fence match, consume the optional "json"
tag and the greedy `\s*` run.  Returns the remaining input and whether the
last consumed character was a newline (so that the next scan position is a
`re.MULTILINE` line start). -/
def fenceTail (l : List Char) : List Char × Bool :=
  let l2 := if l.take 4 = ['j', 's', 'o', 'n'] then l.drop 4 else l
  let ws := l2.takeWhile pyWs
  (l2.dropWhile pyWs, ws.getLast? == some '\n')

/-- `re.sub(r'^```(?:json)?\s*', '', text, flags=re.MULTILINE)`:
scan left to right; at each line start, a "```" (optionally tagged "json",
then a greedy whitespace run) is deleted.  `fuel` bounds the recursion; each
step consumes at least one character, so `fuel = length` is always enough
(the fuel-exhaustion branch is unreachable then). -/
def sub1Aux : Nat → Bool → List Char → List Char
  | 0, _, l => l
  | _ + 1, _, [] => []
  | fuel + 1, bol, c :: cs =>
    if bol && (c == bt) && (cs.take 2 == [bt, bt]) then
      let r := fenceTail (cs.drop 2)
      sub1Aux fuel r.2 r.1
    else
      c :: sub1Aux fuel (c == '\n') cs

/-- First fence-stripping substitution, at full fuel. -/
def sub1Run (l : List Char) : List Char := sub1Aux l.length true l

/-- Try to match `\s*```$` (MULTILINE) at the current position: a whitespace
run, then "```", then end of line (end of input or a following newline, not
consumed).  Returns the rest of the input after the match.  The backtick is
not whitespace, so the greedy `\s*` has exactly one viable length. -/
def sub2Try (l : List Char) : Option (List Char) :=
  match l.dropWhile pyWs with
  | a :: b :: c :: rest =>
    if a == bt && b == bt && c == bt &&
        (match rest with | [] => true | d :: _ => d == '\n') then
      some rest
    else
      Option.none
  | _ => Option.none

/-- `re.sub(r'\s*```$', '', cleaned, flags=re.MULTILINE)`: scan left to
right deleting every match.  Each match consumes at least three characters,
so `fuel = length` is always enough. -/
def sub2Aux : Nat → List Char → List Char
  | 0, l => l
  | _ + 1, [] => []
  | fuel + 1, c :: cs =>
    match sub2Try (c :: cs) with
    | some rest => sub2Aux fuel rest
    | Option.none => c :: sub2Aux fuel cs

/-- Second fence-stripping substitution, at full fuel. -/
def sub2Run (l : List Char) : List Char := sub2Aux l.length l

/-- The `cleaned` text of the parser's first tier:
strip fences (both substitutions) and `str.strip()` the result. -/
def cleanedList (text : List Char) : List Char :=
  pyStripList (sub2Run (sub1Run text))

/-- Python values produced by `json.loads`, as far as this program can
observe them.  Finite floats are carried exactly as rationals (the binary
rounding of Python floats is abstracted away; no claim depends on it);
`nonfinite true` is NaN, `nonfinite false` an infinity. -/
inductive PyVal where
  | str (s : String)
  | int (n : Int)
  | float (q : Rat)
  | bool (b : Bool)
  | pynone
  | nonfinite (isNan : Bool)
  | list (xs : List PyVal)
  | dict (entries : List (String × PyVal))

/-- Value of a hexadecimal digit, if any. -/
def hexVal (c : Char) : Option Nat :=
  if '0' ≤ c ∧ c ≤ '9' then some (c.toNat - 48)
  else if 'a' ≤ c ∧ c ≤ 'f' then some (c.toNat - 87)
  else if 'A' ≤ c ∧ c ≤ 'F' then some (c.toNat - 55)
  else Option.none

/-- Decode one JSON string body (after the opening quote), accumulating
characters; returns the decoded string and the rest of the input.  Strict
mode: a raw control character is an error.  `\uXXXX` maps through
`Char.ofNat` (surrogate pairing is not modelled; no claim depends on it). -/
def parseJStringAux : List Char → List Char → Option (String × List Char)
  | _, [] => Option.none
  | acc, c :: cs =>
    if c == '"' then some (acc.reverse.asString, cs)
    else if c == '\\' then
      match cs with
      | '"' :: cs2 => parseJStringAux ('"' :: acc) cs2
      | '\\' :: cs2 => parseJStringAux ('\\' :: acc) cs2
      | '/' :: cs2 => parseJStringAux ('/' :: acc) cs2
      | 'b' :: cs2 => parseJStringAux (Char.ofNat 8 :: acc) cs2
      | 'f' :: cs2 => parseJStringAux (Char.ofNat 12 :: acc) cs2
      | 'n' :: cs2 => parseJStringAux ('\n' :: acc) cs2
      | 'r' :: cs2 => parseJStringAux ('\r' :: acc) cs2
      | 't' :: cs2 => parseJStringAux ('\t' :: acc) cs2
      | 'u' :: h1 :: h2 :: h3 :: h4 :: cs2 =>
        match hexVal h1, hexVal h2, hexVal h3, hexVal h4 with
        | some v1, some v2, some v3, some v4 =>
          parseJStringAux (Char.ofNat (4096 * v1 + 256 * v2 + 16 * v3 + v4) :: acc) cs2
        | _, _, _, _ => Option.none
      | _ => Option.none
    else if c.toNat < 32 then Option.none
    else parseJStringAux (c :: acc) cs

/-- Decode a JSON string after its opening quote. -/
def parseJString (l : List Char) : Option (String × List Char) :=
  parseJStringAux [] l

/-- Numeric value of a run of decimal digits. -/
def digitsVal (l : List Char) : Nat :=
  l.foldl (fun a c => a * 10 + (c.toNat - 48)) 0

/-- Parse a JSON number at the head of the input, per the RFC grammar used
by `json.loads`: `-? (0 | [1-9][0-9]*) (\.[0-9]+)? ([eE][+-]?[0-9]+)?`.
A number without fraction and exponent is a Python `int`; otherwise a float,
whose exact value is returned as a rational. -/
def parseNumber (l : List Char) : Option (PyVal × List Char) :=
  let signed : Bool × List Char := match l with
    | '-' :: r => (true, r)
    | _ => (false, l)
  match signed with
  | (neg, l1) =>
    let ipart : Option (List Char × List Char) :=
      match l1 with
      | '0' :: r => some (['0'], r)
      | c :: _ =>
        if c.isDigit then
          some (l1.takeWhile Char.isDigit, l1.dropWhile Char.isDigit)
        else Option.none
      | [] => Option.none
    match ipart with
    | Option.none => Option.none
    | some (ids, r1) =>
      let frac : Option (List Char × List Char) :=
        match r1 with
        | '.' :: r2 =>
          let fs := r2.takeWhile Char.isDigit
          if fs = [] then Option.none else some (fs, r2.dropWhile Char.isDigit)
        | _ => some ([], r1)
      match frac with
      | Option.none => Option.none
      | some (fds, r3) =>
        let expo : Option (Option Int × List Char) :=
          match r3 with
          | 'e' :: r4 | 'E' :: r4 =>
            let (esign, r5) : Int × List Char :=
              match r4 with
              | '+' :: r5 => (1, r5)
              | '-' :: r5 => (-1, r5)
              | _ => (1, r4)
            let eds := r5.takeWhile Char.isDigit
            if eds = [] then Option.none
            else some (some (esign * (digitsVal eds : Int)), r5.dropWhile Char.isDigit)
          | _ => some (Option.none, r3)
        match expo with
        | Option.none => Option.none
        | some (eo, rest) =>
          let sgn : Int := if neg then -1 else 1
          match fds, eo with
          | [], Option.none => some (PyVal.int (sgn * (digitsVal ids : Int)), rest)
          | _, _ =>
            let e : Int := eo.getD 0
            let mant : Int := sgn * ((digitsVal ids * 10 ^ fds.length + digitsVal fds : Nat) : Int)
            let shift : Int := e - (fds.length : Int)
            let q : Rat :=
              if 0 ≤ shift then mkRat (mant * (10 ^ shift.toNat : Nat)) 1
              else mkRat mant (10 ^ (-shift).toNat)
            some (PyVal.float q, rest)

mutual

/-- `json.loads` value parser (recursive descent).  `fuel` bounds the
recursion depth; every recursive call consumes input, so fuel equal to the
input length is always sufficient. -/
def parseValue : Nat → List Char → Option (PyVal × List Char)
  | 0, _ => Option.none
  | fuel + 1, l =>
    match l.dropWhile jsonWs with
    | '"' :: rest =>
      (parseJString rest).map (fun r => (PyVal.str r.1, r.2))
    | 't' :: 'r' :: 'u' :: 'e' :: rest => some (PyVal.bool true, rest)
    | 'f' :: 'a' :: 'l' :: 's' :: 'e' :: rest => some (PyVal.bool false, rest)
    | 'n' :: 'u' :: 'l' :: 'l' :: rest => some (PyVal.pynone, rest)
    | 'N' :: 'a' :: 'N' :: rest => some (PyVal.nonfinite true, rest)
    | 'I' :: 'n' :: 'f' :: 'i' :: 'n' :: 'i' :: 't' :: 'y' :: rest =>
      some (PyVal.nonfinite false, rest)
    | '-' :: 'I' :: 'n' :: 'f' :: 'i' :: 'n' :: 'i' :: 't' :: 'y' :: rest =>
      some (PyVal.nonfinite false, rest)
    | c :: rest =>
      if c == lbrace then
        match rest.dropWhile jsonWs with
        | d :: rest2 =>
          if d == rbrace then some (PyVal.dict [], rest2)
          else parseMembers fuel (d :: rest2) []
        | [] => Option.none
      else if c == '[' then
        match rest.dropWhile jsonWs with
        | ']' :: rest2 => some (PyVal.list [], rest2)
        | other => parseElements fuel other []
      else parseNumber (c :: rest)
    | [] => Option.none

/-- Parse the members of a JSON object after its opening brace (first key
position, whitespace already skipped).  Later duplicate keys overwrite
earlier ones in the resulting Python dict; the entry list keeps source
order, and lookups below take the last match. -/
def parseMembers : Nat → List Char → List (String × PyVal) →
    Option (PyVal × List Char)
  | 0, _, _ => Option.none
  | fuel + 1, l, acc =>
    match l with
    | '"' :: rest =>
      match parseJString rest with
      | some (k, r1) =>
        match r1.dropWhile jsonWs with
        | ':' :: r3 =>
          match parseValue fuel r3 with
          | some (v, r4) =>
            match r4.dropWhile jsonWs with
            | ',' :: r6 => parseMembers fuel (r6.dropWhile jsonWs) (acc ++ [(k, v)])
            | d :: r6 =>
              if d == rbrace then some (PyVal.dict (acc ++ [(k, v)]), r6)
              else Option.none
            | [] => Option.none
          | Option.none => Option.none
        | _ => Option.none
      | Option.none => Option.none
    | _ => Option.none

/-- Parse the elements of a JSON array after its opening bracket (first
element position, whitespace already skipped). -/
def parseElements : Nat → List Char → List PyVal → Option (PyVal × List Char)
  | 0, _, _ => Option.none
  | fuel + 1, l, acc =>
    match parseValue fuel l with
    | some (v, r1) =>
      match r1.dropWhile jsonWs with
      | ',' :: r2 => parseElements fuel r2 (acc ++ [v])
      | ']' :: r2 => some (PyVal.list (acc ++ [v]), r2)
      | _ => Option.none
    | Option.none => Option.none

end

/-- `json.loads`: parse one value and require only whitespace after it;
anything else is a `JSONDecodeError`, modelled as `Option.none`. -/
def jsonLoads (l : List Char) : Option PyVal :=
  match parseValue (l.length + 1) l with
  | some (v, rest) => if rest.dropWhile jsonWs = [] then some v else Option.none
  | Option.none => Option.none

/-- Lookup in a Python dict built by `json.loads` from an entry list in
source order: a later duplicate key overwrites an earlier one, so the last
matching entry wins. -/
def lookupLast (es : List (String × PyVal)) (k : String) : Option PyVal :=
  es.foldl (fun acc e => if e.1 = k then some e.2 else acc) Option.none

/-- `data.get(key, default)`: only dicts have `.get`; on any other value the
attribute access raises `AttributeError`, modelled as `Option.none`. -/
def pyGetAttr : PyVal → String → PyVal → Option PyVal
  | PyVal.dict es, k, dflt => some ((lookupLast es k).getD dflt)
  | _, _, _ => Option.none

/-- Python `str.upper()` (ASCII model). -/
def pyUpper (s : String) : String := (s.data.map Char.toUpper).asString

/-- Python `str.lower()` (ASCII model). -/
def pyLower (s : String) : String := (s.data.map Char.toLower).asString

/-- `value.upper()`: only strings have `.upper`; any other value raises
`AttributeError`, modelled as `Option.none`. -/
def pyUpperV : PyVal → Option String
  | PyVal.str s => some (pyUpper s)
  | _ => Option.none

/-- Result of Python's `int(...)` conversion. -/
inductive IntRes where
  | ok (n : Int)
  | valueError
  | typeError
  | overflowError
deriving DecidableEq

/-- Digit run with single underscores between digits (Python integer
literal syntax accepted by `int(str)`); first character must be a digit. -/
def digitsUnderscore : Nat → List Char → Option Nat
  | acc, [] => some acc
  | acc, '_' :: c :: cs =>
    if c.isDigit then digitsUnderscore (acc * 10 + (c.toNat - 48)) cs
    else Option.none
  | _, ['_'] => Option.none
  | acc, c :: cs =>
    if c.isDigit then digitsUnderscore (acc * 10 + (c.toNat - 48)) cs
    else Option.none

/-- `int(str)`: strip whitespace, optional sign, decimal digits (ASCII
model; underscores between digits allowed). -/
def pyIntOfString (s : String) : Option Int :=
  let l := pyStripList s.data
  let signed : Int × List Char := match l with
    | '+' :: r => (1, r)
    | '-' :: r => (-1, r)
    | _ => (1, l)
  match signed.2 with
  | c :: cs =>
    if c.isDigit then
      (digitsUnderscore (c.toNat - 48) cs).map (fun n => signed.1 * (n : Int))
    else Option.none
  | [] => Option.none

/-- Truncation of a rational toward zero (Python `int(float)`). -/
def ratTrunc (q : Rat) : Int := Int.tdiv q.num (q.den : Int)

/-- Python `int(value)`: ints pass through, bools become 0/1, strings are
parsed or raise `ValueError`, finite floats truncate toward zero, NaN raises
`ValueError`, infinities raise `OverflowError`, and everything else
(`None`, lists, dicts) raises `TypeError`. -/
def pyInt : PyVal → IntRes
  | PyVal.int n => IntRes.ok n
  | PyVal.bool b => IntRes.ok (if b then 1 else 0)
  | PyVal.str s =>
    match pyIntOfString s with
    | some n => IntRes.ok n
    | Option.none => IntRes.valueError
  | PyVal.float q => IntRes.ok (ratTrunc q)
  | PyVal.nonfinite isNan => if isNan then IntRes.valueError else IntRes.overflowError
  | PyVal.pynone => IntRes.typeError
  | PyVal.list _ => IntRes.typeError
  | PyVal.dict _ => IntRes.typeError

/-- `min(max(confidence, 0), 100)` from the source. -/
def pyClamp (n : Int) : Int := min (max n 0) 100

/-- Case-insensitive literal match (regex `re.IGNORECASE` on ASCII):
returns the rest of the input after the literal, if it matches. -/
def icaseLit : List Char → List Char → Option (List Char)
  | [], l => some l
  | _ :: _, [] => Option.none
  | p :: ps, c :: cs =>
    if p.toLower == c.toLower then icaseLit ps cs else Option.none

/-- Does `'"' status '"' \s* ':' \s* '"' (OPEN|CLOSED|UNKNOWN) '"'` match at
the head of the input (case-insensitively)?  This is the inner part of the
tier-2 regex `\{[^}]*"status"\s*:\s*"(OPEN|CLOSED|UNKNOWN)"[^}]*\}`. -/
def statusPatAt (l : List Char) : Bool :=
  match l with
  | '"' :: r =>
    match icaseLit ['s', 't', 'a', 't', 'u', 's'] r with
    | some ('"' :: r2) =>
      match r2.dropWhile pyWs with
      | ':' :: r4 =>
        match r4.dropWhile pyWs with
        | '"' :: r6 =>
          (match icaseLit ['o', 'p', 'e', 'n'] r6 with
            | some ('"' :: _) => true
            | _ => false) ||
          (match icaseLit ['c', 'l', 'o', 's', 'e', 'd'] r6 with
            | some ('"' :: _) => true
            | _ => false) ||
          (match icaseLit ['u', 'n', 'k', 'n', 'o', 'w', 'n'] r6 with
            | some ('"' :: _) => true
            | _ => false)
        | _ => false
      | _ => false
    | _ => false
  | _ => false

/-- `re.search(r'\{[^}]*"status"\s*:\s*"(OPEN|CLOSED|UNKNOWN)"[^}]*\}', text,
re.IGNORECASE)`: scanning left to right for the first `{`-position that
matches, the whole match (`group(0)`) runs from the `{` to the first `}`
after it — both `[^}]*` runs live strictly between those braces, so a match
exists exactly when the status pattern occurs in that brace-free span. -/
def searchAux : List Char → Option (List Char)
  | [] => Option.none
  | c :: cs =>
    if c == lbrace then
      let inner := cs.takeWhile (fun d => d != rbrace)
      match cs.dropWhile (fun d => d != rbrace) with
      | _ :: _ =>
        if (inner.tails.any statusPatAt) then some (lbrace :: inner ++ [rbrace])
        else searchAux cs
      | [] => searchAux cs
    else searchAux cs

/-- The tier-2 regex search over the (stripped) response text. -/
def searchStatusJson (text : List Char) : Option (List Char) := searchAux text

/-- Uncaught Python exceptions that can escape `parse_gate_response`. -/
inductive PyErr where
  | typeError
  | overflowError
  | attributeError
deriving DecidableEq

/-- Outcome of one parsing tier: an early `return`, a fall-through to the
next tier (all raised exceptions caught), or an uncaught exception. -/
inductive TierOut where
  | ret (r : String × Int)
  | fall
  | raise (e : PyErr)
deriving DecidableEq

/-- Tier 1 of `parse_gate_response`, as a function of the fence-stripped
`cleaned` text: `json.loads`, `data.get("status", "UNKNOWN").upper()`,
`int(data.get("confidence", 0))`, and the membership check.  The `except`
clause catches `json.JSONDecodeError`, `ValueError` and `AttributeError`
(fall-through) but not `TypeError` / `OverflowError` (uncaught). -/
def tier1Core (cleaned : List Char) : TierOut :=
  match jsonLoads cleaned with
  | Option.none => TierOut.fall
  | some data =>
    match pyGetAttr data "status" (PyVal.str "UNKNOWN") with
    | Option.none => TierOut.fall
    | some sv =>
      match pyUpperV sv with
      | Option.none => TierOut.fall
      | some status =>
        match pyGetAttr data "confidence" (PyVal.int 0) with
        | Option.none => TierOut.fall
        | some cv =>
          match pyInt cv with
          | IntRes.valueError => TierOut.fall
          | IntRes.typeError => TierOut.raise PyErr.typeError
          | IntRes.overflowError => TierOut.raise PyErr.overflowError
          | IntRes.ok confidence =>
            if status = "OPEN" ∨ status = "CLOSED" ∨ status = "UNKNOWN" then
              TierOut.ret (pyLower status, pyClamp confidence)
            else TierOut.fall

/-- Tier 1 on the stripped response text. -/
def tier1 (text : List Char) : TierOut := tier1Core (cleanedList text)

/-- Tier 2 of `parse_gate_response`: regex search for an embedded JSON
object carrying a status field, then `json.loads` on the match.  Here the
`except` clause catches only `json.JSONDecodeError` and `ValueError`;
`AttributeError` (and `TypeError` / `OverflowError`) escape.  Note there is
no membership check on the status in this tier. -/
def tier2 (text : List Char) : TierOut :=
  match searchStatusJson text with
  | Option.none => TierOut.fall
  | some m =>
    match jsonLoads m with
    | Option.none => TierOut.fall
    | some data =>
      match pyGetAttr data "status" (PyVal.str "UNKNOWN") with
      | Option.none => TierOut.raise PyErr.attributeError
      | some sv =>
        match pyUpperV sv with
        | Option.none => TierOut.raise PyErr.attributeError
        | some status =>
          match pyGetAttr data "confidence" (PyVal.int 0) with
          | Option.none => TierOut.raise PyErr.attributeError
          | some cv =>
            match pyInt cv with
            | IntRes.valueError => TierOut.fall
            | IntRes.typeError => TierOut.raise PyErr.typeError
            | IntRes.overflowError => TierOut.raise PyErr.overflowError
            | IntRes.ok confidence =>
              TierOut.ret (pyLower status, pyClamp confidence)

/-- Does `pat` occur as a contiguous substring of `l` (Python `in`)? -/
def containsSub : List Char → List Char → Bool
  | [], pat => pat.isPrefixOf []
  | c :: t, pat => pat.isPrefixOf (c :: t) || containsSub t pat

/-- Tier 3 of `parse_gate_response`: keyword fallback on the upper-cased
text — "OPEN" wins over "CLOSED", else `(unknown, 0)`. -/
def tier3 (text : List Char) : String × Int :=
  if containsSub (text.map Char.toUpper) ['O', 'P', 'E', 'N'] then ("open", 50)
  else if containsSub (text.map Char.toUpper) ['C', 'L', 'O', 'S', 'E', 'D'] then
    ("closed", 50)
  else ("unknown", 0)

/-- `parse_gate_response(response_text)`: strip the text, then run the three
tiers in order; an uncaught exception aborts with `Except.error`. -/
def parse_gate_response (response_text : String) : Except PyErr (String × Int) :=
  let text := pyStripList response_text.data
  match tier1 text with
  | TierOut.ret r => Except.ok r
  | TierOut.raise e => Except.error e
  | TierOut.fall =>
    match tier2 text with
    | TierOut.ret r => Except.ok r
    | TierOut.raise e => Except.error e
    | TierOut.fall => Except.ok (tier3 text)

/-- Outcome of one `client.models.generate_content` call, as observed by
`analyze_gate`: a response text, a rate-limit error (a message containing
"429" / "RESOURCE_EXHAUSTED"), or any other failure. -/
inductive ApiOutcome where
  | ok (text : String)
  | rateLimit
  | fail

/-- The retry loop of `analyze_gate` from a given attempt number, with the
number of remaining iterations of `range(max_retries)`.  Returns the
`(status, confidence)` result together with the list of back-off sleeps
(in seconds) performed, in order.  A response whose parsing raises is
caught by the blanket `except`; such an exception message carries no
"429"/"RESOURCE_EXHAUSTED", so it takes the non-rate-limit branch. -/
def analyzeGateAux (oracle : Nat → ApiOutcome) (threshold : Int) :
    Nat → Nat → (String × Int) × List Nat
  | _, 0 => (("error", 0), [])
  | attempt, rem + 1 =>
    match oracle attempt with
    | ApiOutcome.ok text =>
      match parse_gate_response (pyStrip text) with
      | Except.error _ => (("error", 0), [])
      | Except.ok (status, confidence) =>
        if confidence < threshold then (("unknown", confidence), [])
        else ((status, confidence), [])
    | ApiOutcome.rateLimit =>
      let wait := 60 * (attempt + 1)
      let r := analyzeGateAux oracle threshold (attempt + 1) rem
      (r.1, wait :: r.2)
    | ApiOutcome.fail => (("error", 0), [])

/-- `analyze_gate(...)` with the oracle modelled as a map from attempt
number to outcome; `max_retries` is the loop bound (3 at every call site). -/
def analyze_gate (oracle : Nat → ApiOutcome) (threshold : Int)
    (max_retries : Nat) : (String × Int) × List Nat :=
  analyzeGateAux oracle threshold 0 max_retries

/-- Inputs of one poll-loop iteration of `main`: the three capture attempts
(`Option` frame identifiers, `Option.none` = capture failure) and the three
`analyze_gate` results that would be produced on each captured frame. -/
structure CycleEnv where
  cap1 : Option Nat
  cls1 : String × Int
  cap2 : Option Nat
  cls2 : String × Int
  cap3 : Option Nat
  cls3 : String × Int

/-- Observable outcome of one poll-loop iteration: the message published to
the status topic (with the final `confidence` variable and `full_frame`
snapshot), whether an open-alert was published, and how many capture and
classification attempts were made. -/
structure CycleOut where
  published : Option (String × Int × Nat)
  alert : Bool
  captures : Nat
  classifications : Nat
deriving DecidableEq

/-- One iteration of the poll loop in `main` (the confirmation engine):
mirror of lines 477-534 of `gate_monitor.py`.  Note that only the first
classification result is guarded by `status != "error"`, that the
two-agreeing-opens branch updates `status` and `full_frame` but not
`confidence`, and that a failed confirmation capture forces "unknown". -/
def runCycle (e : CycleEnv) : CycleOut :=
  match e.cap1 with
  | Option.none => ⟨Option.none, false, 1, 0⟩
  | some f1 =>
    let s0 := e.cls1.1
    let c0 := e.cls1.2
    if s0 != "error" then
      let r : String × Int × Nat × Nat × Nat :=
        if s0 == "open" then
          match e.cap2 with
          | some f2 =>
            if e.cls2.1 == "open" then ("open", c0, f2, 2, 2)
            else
              match e.cap3 with
              | some f3 => (e.cls3.1, e.cls3.2, f3, 3, 3)
              | Option.none => (e.cls2.1, e.cls2.2, f2, 3, 2)
          | Option.none => ("unknown", c0, f1, 2, 1)
        else (s0, c0, f1, 1, 1)
      ⟨some (r.1, r.2.1, r.2.2.1), r.1 == "open", r.2.2.2.1, r.2.2.2.2⟩
    else ⟨Option.none, false, 1, 1⟩

/-- Wrap a text in markdown code fences with the "json" tag, as the oracle
is prone to do. -/
def fenceJson (s : String) : String := "```json\n" ++ s ++ "\n```"

/-- The `cleaned` text that tier 1 computes for a given response text. -/
def cleanedOf (s : String) : List Char := cleanedList (pyStripList s.data)

/-- Fixed inputs used by witnesses and counterexamples below. -/
def respOpen90 : String := "\x7b\"status\": \"OPEN\", \"confidence\": 90\x7d"

/-- A response whose confidence is below the default threshold of 70. -/
def respOpen60 : String := "\x7b\"status\": \"OPEN\", \"confidence\": 60\x7d"

/-- A well-formed JSON response with a `null` confidence. -/
def respNullConf : String := "\x7b\"status\": \"OPEN\", \"confidence\": null\x7d"

/-- A response whose embedded-JSON fallback yields a status outside the
three expected values (duplicate `status` keys: the regex sees the first
pair, `json.loads` keeps the last). -/
def respAjar : String := "\x7b\"status\":\"OPEN\",\"status\":\"AJAR\"\x7d"

/-- C1 (code bug): the claim says an Error at any classification step
publishes nothing, but the code only guards the first classification.  Here
classification₁ is Open, the confirmation classification returns Error, the
tiebreak capture fails, and the cycle publishes the string "error" to the
status topic — a value outside `open`/`closed`/`unknown` reaches the
publish step. -/
theorem c1_error_status_published :
    (runCycle ⟨some 1, ("open", 90), some 2, ("error", 0), Option.none,
        ("unknown", 0)⟩).published = some ("error", 0, 2) ∧
    ("error" : String) ∉ (["open", "closed", "unknown"] : List String) := by
  exact ⟨rfl, by decide⟩

/-- C2 (counterexample): with classification₁ = (open, 90) and
classification₂ = (open, 85), the cycle's final decision keeps
confidence₁ = 90, not confidence₂ = 85 as the claim states (the code
updates `status` and `full_frame` but never `confidence`). -/
theorem c2_confidence_counterexample :
    runCycle ⟨some 1, ("open", 90), some 2, ("open", 85), Option.none,
        ("unknown", 0)⟩ =
      ⟨some ("open", 90, 2), true, 2, 2⟩ ∧
    (runCycle ⟨some 1, ("open", 90), some 2, ("open", 85), Option.none,
        ("unknown", 0)⟩).published ≠ some ("open", 85, 2) := by
  exact ⟨rfl, by decide⟩

/-- C2 (amended): when the first classification is Open, the confirmation
capture succeeds and its classification is also Open, the final decision is
status = open with confidence = confidence₁ (the first classification's
confidence — the confirmation confidence is only logged) and snapshot =
frame₂; exactly two captures and two classifications happen and an alert is
published. -/
theorem c2_agreeing_opens (f1 f2 : Nat) (c1 c2 : Int) (cap3 : Option Nat)
    (cls3 : String × Int) :
    runCycle ⟨some f1, ("open", c1), some f2, ("open", c2), cap3, cls3⟩ =
      ⟨some ("open", c1, f2), true, 2, 2⟩ := rfl

/-- C5: if the first classification is Open and the confirmation capture
fails outright, the final published status is forced to unknown (keeping
confidence₁ and frame₁), no alert fires, and only two captures and one
classification are ever attempted — no tiebreak happens and no single-frame
Open reaches the publish step. -/
theorem c5_confirmation_capture_fails (f1 : Nat) (c1 : Int)
    (cls2 : String × Int) (cap3 : Option Nat) (cls3 : String × Int) :
    runCycle ⟨some f1, ("open", c1), Option.none, cls2, cap3, cls3⟩ =
      ⟨some ("unknown", c1, f1), false, 2, 1⟩ := rfl

/-- C6: in the disagreement branch (classification₁ Open, classification₂
not Open): a successful tiebreak capture makes the final status, confidence
and snapshot exactly those of classification₃/frame₃ (whatever
classification₃ is, with the alert exactly when it is open); a failed
tiebreak capture makes them exactly those of classification₂/frame₂, and in
both cases the cycle still publishes (it is not aborted). -/
theorem c6_tiebreak (f1 f2 f3 : Nat) (c1 c2 c3 : Int) (s2 s3 : String)
    (cls3 : String × Int) (h : s2 ≠ "open") :
    runCycle ⟨some f1, ("open", c1), some f2, (s2, c2), some f3, (s3, c3)⟩ =
      ⟨some (s3, c3, f3), s3 == "open", 3, 3⟩ ∧
    runCycle ⟨some f1, ("open", c1), some f2, (s2, c2), Option.none, cls3⟩ =
      ⟨some (s2, c2, f2), false, 3, 2⟩ := by
  have h2 : (s2 == "open") = false := by simpa using h
  constructor <;> simp [runCycle, h2]

/-- C6 (witness): the disagreement scenarios from the spec, via
`c6_tiebreak` at classification₂ = (closed, 60). -/
theorem c6_tiebreak_witness :
    runCycle ⟨some 1, ("open", 80), some 2, ("closed", 60), some 3,
        ("closed", 75)⟩ = ⟨some ("closed", 75, 3), false, 3, 3⟩ ∧
    runCycle ⟨some 1, ("open", 80), some 2, ("closed", 60), Option.none,
        ("closed", 75)⟩ = ⟨some ("closed", 60, 2), false, 3, 2⟩ := by
  have h := c6_tiebreak 1 2 3 80 60 75 "closed" "closed" ("closed", 75)
    (by decide)
  exact ⟨h.1, h.2⟩

/-- C3: for every response text whose parse yields `(s, c)` and every
threshold `T`, `analyze_gate` returns `(unknown, c)` when `c < T` —
downgrading any status, including open and closed, while preserving the
numeric confidence — and returns `(s, c)` unchanged when `c ≥ T`; no
back-off sleep happens either way. -/
theorem c3_threshold_gating (text : String) (T : Int) (s : String) (c : Int)
    (h : parse_gate_response (pyStrip text) = Except.ok (s, c)) :
    analyze_gate (fun _ => ApiOutcome.ok text) T 3 =
      ((if c < T then ("unknown", c) else (s, c)), []) := by
  simp only [analyze_gate, analyzeGateAux, h]
  split <;> rfl

/-- C3 (witness): a parsed (open, 60) against thresholds 70 and 50. -/
theorem c3_threshold_gating_witness :
    analyze_gate (fun _ => ApiOutcome.ok respOpen60) 70 3 = (("unknown", 60), []) ∧
    analyze_gate (fun _ => ApiOutcome.ok respOpen60) 50 3 = (("open", 60), []) := by
  have h1 := c3_threshold_gating respOpen60 70 "open" 60 (by rfl)
  have h2 := c3_threshold_gating respOpen60 50 "open" 60 (by rfl)
  simp only [show ((60 : Int) < 70) = True by simp] at h1
  simp only [show ((60 : Int) < 50) = False by simp] at h2
  simpa using ⟨h1, h2⟩

/-- C4: with `max_retries = 3`, three consecutive rate-limit failures sleep
60 s, 120 s and 180 s (one after each attempt) and then return Error; a
non-rate-limit failure on any attempt returns Error immediately from that
attempt, with no sleep of its own and no further attempts — on attempt 1
with no sleep at all, on attempt 2 after only the 60 s sleep, and on
attempt 3 after only the 60 s and 120 s sleeps. -/
theorem c4_retry_policy (oracle : Nat → ApiOutcome) (T : Int) :
    (oracle 0 = ApiOutcome.rateLimit → oracle 1 = ApiOutcome.rateLimit →
      oracle 2 = ApiOutcome.rateLimit →
      analyze_gate oracle T 3 = (("error", 0), [60, 120, 180])) ∧
    (oracle 0 = ApiOutcome.fail →
      analyze_gate oracle T 3 = (("error", 0), [])) ∧
    (oracle 0 = ApiOutcome.rateLimit → oracle 1 = ApiOutcome.fail →
      analyze_gate oracle T 3 = (("error", 0), [60])) ∧
    (oracle 0 = ApiOutcome.rateLimit → oracle 1 = ApiOutcome.rateLimit →
      oracle 2 = ApiOutcome.fail →
      analyze_gate oracle T 3 = (("error", 0), [60, 120])) := by
  refine ⟨fun h0 h1 h2 => ?_, fun h0 => ?_, fun h0 h1 => ?_, fun h0 h1 h2 => ?_⟩ <;>
    simp [analyze_gate, analyzeGateAux, h0, *]

/-- C4 (witness): the four retry scenarios at concrete oracles — all rate
limits, and a non-rate-limit failure on each of attempts 1, 2 and 3. -/
theorem c4_retry_policy_witness :
    analyze_gate (fun _ => ApiOutcome.rateLimit) 70 3 =
      (("error", 0), [60, 120, 180]) ∧
    analyze_gate (fun _ => ApiOutcome.fail) 70 3 = (("error", 0), []) ∧
    analyze_gate (fun n => if n = 0 then ApiOutcome.rateLimit else ApiOutcome.fail)
        70 3 = (("error", 0), [60]) ∧
    analyze_gate (fun n => if n ≤ 1 then ApiOutcome.rateLimit else ApiOutcome.fail)
        70 3 = (("error", 0), [60, 120]) :=
  ⟨(c4_retry_policy (fun _ => ApiOutcome.rateLimit) 70).1 rfl rfl rfl,
   (c4_retry_policy (fun _ => ApiOutcome.fail) 70).2.1 rfl,
   (c4_retry_policy (fun n => if n = 0 then ApiOutcome.rateLimit else ApiOutcome.fail)
     70).2.2.1 rfl rfl,
   (c4_retry_policy (fun n => if n ≤ 1 then ApiOutcome.rateLimit else ApiOutcome.fail)
     70).2.2.2 rfl rfl rfl⟩

/-- The clamp `min(max(c, 0), 100)` always lands in `[0, 100]`. -/
theorem pyClamp_bounds (n : Int) : 0 ≤ pyClamp n ∧ pyClamp n ≤ 100 := by
  unfold pyClamp
  constructor
  · exact le_min (le_max_right n 0) (by norm_num)
  · exact min_le_right _ _

/-- Every early return of tier 1 carries a clamped confidence. -/
theorem tier1_ret_bounds (t : List Char) (r : String × Int)
    (h : tier1 t = TierOut.ret r) : 0 ≤ r.2 ∧ r.2 ≤ 100 := by
  unfold tier1 tier1Core at h
  repeat' split at h
  any_goals cases h
  all_goals exact pyClamp_bounds _

/-- Every early return of tier 2 carries a clamped confidence. -/
theorem tier2_ret_bounds (t : List Char) (r : String × Int)
    (h : tier2 t = TierOut.ret r) : 0 ≤ r.2 ∧ r.2 ≤ 100 := by
  unfold tier2 at h
  repeat' split at h
  any_goals cases h
  all_goals exact pyClamp_bounds _

/-- The keyword fallback only produces confidences 50 or 0. -/
theorem tier3_bounds (t : List Char) : 0 ≤ (tier3 t).2 ∧ (tier3 t).2 ≤ 100 := by
  unfold tier3
  repeat' split
  all_goals decide

/-- C10 (counterexample): `parse_gate_response` is not total and does not
always return a status among open/closed/unknown: a well-formed JSON object
with a `null` confidence makes `int(None)` raise `TypeError`, which the
first tier's `except` clause does not catch; and duplicate `status` keys
drive the embedded-JSON tier to return the status "ajar". -/
theorem c10_parse_counterexample :
    parse_gate_response respNullConf = Except.error PyErr.typeError ∧
    parse_gate_response respAjar = Except.ok ("ajar", 0) := ⟨rfl, rfl⟩

/-- C10 (amended): on every input on which `parse_gate_response` returns
normally, the confidence is clamped into `[0, 100]` (totality and the
status-membership part of the claim fail, per the counterexample). -/
theorem c10_confidence_clamped (s : String) (r : String × Int)
    (h : parse_gate_response s = Except.ok r) : 0 ≤ r.2 ∧ r.2 ≤ 100 := by
  simp only [parse_gate_response] at h
  split at h
  · cases h; exact tier1_ret_bounds _ _ (by assumption)
  · cases h
  · split at h
    · cases h; exact tier2_ret_bounds _ _ (by assumption)
    · cases h
    · cases h; exact tier3_bounds _

/-- C10 (witness for the amended claim): the keyword-fallback result on a
plain-text reply is within bounds. -/
theorem c10_confidence_clamped_witness :
    0 ≤ (("open", (50 : Int)) : String × Int).2 ∧
      (("open", (50 : Int)) : String × Int).2 ≤ 100 :=
  c10_confidence_clamped "gate looks OPEN" ("open", 50) rfl

/-- Behaviour of the clamp on the three ranges of inputs. -/
theorem pyClamp_spec (n : Int) :
    (0 ≤ n → n ≤ 100 → pyClamp n = n) ∧ (n < 0 → pyClamp n = 0) ∧
    (100 < n → pyClamp n = 100) := by
  unfold pyClamp
  rw [max_def, min_def]
  refine ⟨fun h1 h2 => ?_, fun h => ?_, fun h => ?_⟩ <;> split_ifs <;> omega

/-- C7: for every response whose fence-stripped `cleaned` text is
well-formed JSON with a string status field that upper-cases to OPEN,
CLOSED or UNKNOWN and an integer confidence, `parse_gate_response` returns
that status lower-cased together with the confidence clamped into
`[0, 100]` — unchanged when already in range, `0` below, `100` above. -/
theorem c7_wellformed_json (s : String) (d : List (String × PyVal))
    (st : String) (c : Int)
    (hj : jsonLoads (cleanedOf s) = some (PyVal.dict d))
    (hst : lookupLast d "status" = some (PyVal.str st))
    (hc : lookupLast d "confidence" = some (PyVal.int c))
    (hm : pyUpper st = "OPEN" ∨ pyUpper st = "CLOSED" ∨ pyUpper st = "UNKNOWN") :
    parse_gate_response s = Except.ok (pyLower (pyUpper st), pyClamp c) ∧
    (0 ≤ c → c ≤ 100 → pyClamp c = c) ∧
    (c < 0 → pyClamp c = 0) ∧ (100 < c → pyClamp c = 100) := by
  have ht : tier1 (pyStripList s.data) =
      TierOut.ret (pyLower (pyUpper st), pyClamp c) := by
    show tier1Core (cleanedOf s) = _
    unfold tier1Core
    rw [hj]
    simp only [pyGetAttr, hst, hc, Option.getD_some, pyUpperV, pyInt]
    rw [if_pos hm]
  refine ⟨?_, (pyClamp_spec c).1, (pyClamp_spec c).2.1, (pyClamp_spec c).2.2⟩
  simp only [parse_gate_response, ht]

/-- C7 (witness): `{"status": "Open", "confidence": 150}` parses to
`(open, 100)`. -/
theorem c7_wellformed_json_witness :
    parse_gate_response "\x7b\"status\": \"Open\", \"confidence\": 150\x7d" =
      Except.ok ("open", 100) := by
  have h := (c7_wellformed_json
    "\x7b\"status\": \"Open\", \"confidence\": 150\x7d"
    [("status", PyVal.str "Open"), ("confidence", PyVal.int 150)]
    "Open" 150 rfl rfl rfl (Or.inl rfl)).1
  simpa using h

/-- `containsSub` decides contiguous-substring occurrence. -/
theorem containsSub_iff (l pat : List Char) :
    containsSub l pat = true ↔ ∃ a b, l = a ++ (pat ++ b) := by
  induction l with
  | nil =>
    cases pat with
    | nil => simp [containsSub, List.isPrefixOf]
    | cons p ps => simp [containsSub, List.isPrefixOf]
  | cons c t ih =>
    rw [containsSub]
    simp only [Bool.or_eq_true, List.isPrefixOf_iff_prefix, ih]
    constructor
    · rintro (⟨u, hu⟩ | ⟨a, b, hab⟩)
      · exact ⟨[], u, by simp [hu.symm]⟩
      · exact ⟨c :: a, b, by simp [hab]⟩
    · rintro ⟨a, b, hab⟩
      cases a with
      | nil => exact Or.inl ⟨b, by simpa using hab.symm⟩
      | cons a0 a1 =>
        rw [List.cons_append] at hab
        injection hab with h1 h2
        exact Or.inr ⟨a1, b, h2⟩

/-- C8: whenever the first two tiers both fall through on the stripped
response text, `parse_gate_response` returns `(open, 50)` if the
upper-cased text contains the substring "OPEN", else `(closed, 50)` if it
contains "CLOSED", else `(unknown, 0)` — the fallback confidence constant
is exactly 50. -/
theorem c8_keyword_fallback (s : String)
    (h1 : tier1 (pyStripList s.data) = TierOut.fall)
    (h2 : tier2 (pyStripList s.data) = TierOut.fall) :
    ((∃ a b, (pyStripList s.data).map Char.toUpper =
        a ++ (['O', 'P', 'E', 'N'] ++ b)) →
      parse_gate_response s = Except.ok ("open", 50)) ∧
    ((¬ ∃ a b, (pyStripList s.data).map Char.toUpper =
        a ++ (['O', 'P', 'E', 'N'] ++ b)) →
      (∃ a b, (pyStripList s.data).map Char.toUpper =
        a ++ (['C', 'L', 'O', 'S', 'E', 'D'] ++ b)) →
      parse_gate_response s = Except.ok ("closed", 50)) ∧
    ((¬ ∃ a b, (pyStripList s.data).map Char.toUpper =
        a ++ (['O', 'P', 'E', 'N'] ++ b)) →
      (¬ ∃ a b, (pyStripList s.data).map Char.toUpper =
        a ++ (['C', 'L', 'O', 'S', 'E', 'D'] ++ b)) →
      parse_gate_response s = Except.ok ("unknown", 0)) := by
  have hp : parse_gate_response s = Except.ok (tier3 (pyStripList s.data)) := by
    simp only [parse_gate_response, h1, h2]
  refine ⟨fun hopen => ?_, fun hno hcl => ?_, fun hno hnc => ?_⟩
  · rw [hp]
    unfold tier3
    rw [if_pos ((containsSub_iff _ _).mpr hopen)]
  · rw [hp]
    unfold tier3
    rw [if_neg fun hc => hno ((containsSub_iff _ _).mp hc),
      if_pos ((containsSub_iff _ _).mpr hcl)]
  · rw [hp]
    unfold tier3
    rw [if_neg fun hc => hno ((containsSub_iff _ _).mp hc),
      if_neg fun hc => hnc ((containsSub_iff _ _).mp hc)]

/-- C8 (witness): a plain-text reply containing "open" in lower case hits
the keyword fallback with confidence exactly 50. -/
theorem c8_keyword_fallback_witness :
    parse_gate_response "The gate is open" = Except.ok ("open", 50) :=
  (c8_keyword_fallback "The gate is open" rfl rfl).1
    ⟨"THE GATE IS ".data, [], by decide⟩

/-- The fence scanner on empty input, any fuel. -/
theorem sub1Aux_nil (fuel : Nat) (b : Bool) : sub1Aux fuel b [] = [] := by
  cases fuel <;> rfl

/-- A fence match never lengthens the remaining input. -/
theorem fenceTail_length_le (l : List Char) : (fenceTail l).1.length ≤ l.length := by
  unfold fenceTail
  split
  · exact le_trans (List.dropWhile_sublist _).length_le (by simp)
  · exact (List.dropWhile_sublist _).length_le

/-- The fence scanner is fuel-irrelevant as soon as the fuel covers the
input length. -/
theorem sub1Aux_mono (fuel1 : Nat) :
    ∀ fuel2 b l, l.length ≤ fuel1 → l.length ≤ fuel2 →
      sub1Aux fuel1 b l = sub1Aux fuel2 b l := by
  induction fuel1 with
  | zero =>
    intro fuel2 b l h1 _
    have : l = [] := List.length_eq_zero.mp (Nat.le_zero.mp h1)
    subst this
    rw [sub1Aux_nil, sub1Aux_nil]
  | succ f ih =>
    intro fuel2 b l h1 h2
    cases l with
    | nil => rw [sub1Aux_nil, sub1Aux_nil]
    | cons c cs =>
      cases fuel2 with
      | zero => simp at h2
      | succ f2 =>
        rw [sub1Aux, sub1Aux]
        have hcs1 : cs.length ≤ f := by simpa using h1
        have hcs2 : cs.length ≤ f2 := by simpa using h2
        by_cases hc : (b && (c == bt) && (cs.take 2 == [bt, bt])) = true
        · rw [if_pos hc, if_pos hc]
          have hlen : (fenceTail (cs.drop 2)).1.length ≤ cs.length :=
            le_trans (fenceTail_length_le _) (by rw [List.length_drop]; omega)
          exact ih f2 _ _ (le_trans hlen hcs1) (le_trans hlen hcs2)
        · rw [if_neg hc, if_neg hc]
          rw [ih f2 (c == '\n') cs hcs1 hcs2]

/-- On backtick-free input the first substitution never matches. -/
theorem sub1Aux_no_bt (fuel : Nat) :
    ∀ (b : Bool) (l : List Char), (∀ c ∈ l, c ≠ bt) → sub1Aux fuel b l = l := by
  induction fuel with
  | zero => intro b l _; rfl
  | succ f ih =>
    intro b l h
    cases l with
    | nil => rfl
    | cons c cs =>
      have hc : (c == bt) = false := by simpa using h c (by simp)
      rw [sub1Aux, hc]
      simp only [Bool.and_false, Bool.false_and, Bool.false_eq_true, if_false]
      rw [ih (c == '\n') cs fun d hd => h d (List.mem_cons_of_mem _ hd)]

/-- On backtick-free input the second substitution's matcher fails. -/
theorem sub2Try_no_bt (l : List Char) (h : ∀ c ∈ l, c ≠ bt) :
    sub2Try l = Option.none := by
  unfold sub2Try
  split
  · next a b c rest heq =>
    have ha : a ∈ l :=
      (List.dropWhile_sublist _).subset (by rw [heq]; exact List.mem_cons_self a _)
    have hfa : (a == bt) = false := by simpa using h a ha
    rw [hfa]
    simp
  · rfl

/-- On backtick-free input the second substitution is the identity. -/
theorem sub2Aux_no_bt (fuel : Nat) :
    ∀ l : List Char, (∀ c ∈ l, c ≠ bt) → sub2Aux fuel l = l := by
  induction fuel with
  | zero => intro l _; rfl
  | succ f ih =>
    intro l h
    cases l with
    | nil => rfl
    | cons c cs =>
      rw [sub2Aux, sub2Try_no_bt _ h]
      rw [ih cs fun d hd => h d (List.mem_cons_of_mem _ hd)]

/-- Scanning a backtick-free segment of the input just copies it, updating
the line-start flag from the segment's last character. -/
theorem sub1Aux_append_no_bt (m : List Char) :
    ∀ (b : Bool) (rest : List Char) (fuel : Nat),
      (m ++ rest).length ≤ fuel → (∀ c ∈ m, c ≠ bt) →
      sub1Aux fuel b (m ++ rest) =
        m ++ sub1Aux fuel ((m.getLast?.map (fun c => c == '\n')).getD b) rest := by
  induction m with
  | nil => intro b rest fuel _ _; simp
  | cons c m1 ih =>
    intro b rest fuel hlen hbt
    cases fuel with
    | zero => simp at hlen
    | succ f =>
      have hc : (c == bt) = false := by simpa using hbt c (by simp)
      rw [List.cons_append, sub1Aux, hc]
      simp only [Bool.and_false, Bool.false_and, Bool.false_eq_true, if_false]
      have hlen1 : (m1 ++ rest).length ≤ f := by
        rw [List.cons_append] at hlen
        simpa using hlen
      rw [ih (c == '\n') rest f hlen1 fun d hd => hbt d (List.mem_cons_of_mem _ hd)]
      rw [List.cons_append]
      have hr : rest.length ≤ f := le_trans (by simp) hlen1
      have hmono := sub1Aux_mono f (f + 1)
      cases m1 with
      | nil =>
        rw [hmono _ rest hr (le_trans hr (Nat.le_succ f))]
        simp
      | cons d m2 =>
        obtain ⟨x, hx⟩ : ∃ x, (d :: m2).getLast? = some x := by
          cases hgl : (d :: m2).getLast? with
          | none => exact absurd (List.getLast?_eq_none_iff.mp hgl) (by simp)
          | some y => exact ⟨y, rfl⟩
        rw [List.getLast?_cons_cons, hx]
        rw [hmono _ rest hr (le_trans hr (Nat.le_succ f))]
        simp

/-- `str.strip()` is the identity when neither end is whitespace. -/
theorem pyStripList_id (l : List Char)
    (hh : ∀ c, l.head? = some c → pyWs c = false)
    (hl : ∀ c, l.getLast? = some c → pyWs c = false) :
    pyStripList l = l := by
  unfold pyStripList
  have h1 : l.dropWhile pyWs = l := by
    cases l with
    | nil => rfl
    | cons c cs => rw [List.dropWhile_cons_of_neg (by simpa using hh c rfl)]
  rw [h1]
  have h2 : l.reverse.dropWhile pyWs = l.reverse := by
    cases hr : l.reverse with
    | nil => rfl
    | cons d rs =>
      have hd : l.getLast? = some d := by rw [← List.head?_reverse, hr]; rfl
      rw [List.dropWhile_cons_of_neg (by simpa using hl d hd)]
  rw [h2, List.reverse_reverse]

/-- `str.strip()` deletes exactly one trailing newline from a text whose
own ends are not whitespace. -/
theorem pyStripList_append_newline (l : List Char) (hne : l ≠ [])
    (hh : ∀ c, l.head? = some c → pyWs c = false)
    (hl : ∀ c, l.getLast? = some c → pyWs c = false) :
    pyStripList (l ++ ['\n']) = l := by
  unfold pyStripList
  have h1 : (l ++ ['\n']).dropWhile pyWs = l ++ ['\n'] := by
    cases l with
    | nil => exact absurd rfl hne
    | cons c cs =>
      rw [List.cons_append, List.dropWhile_cons_of_neg (by simpa using hh c rfl)]
  rw [h1, List.reverse_append]
  have hrev : (['\n'] : List Char).reverse ++ l.reverse = '\n' :: l.reverse := rfl
  rw [hrev, List.dropWhile_cons_of_pos (by decide)]
  have h2 : l.reverse.dropWhile pyWs = l.reverse := by
    cases hr : l.reverse with
    | nil => rfl
    | cons d rs =>
      have hd : l.getLast? = some d := by rw [← List.head?_reverse, hr]; rfl
      rw [List.dropWhile_cons_of_neg (by simpa using hl d hd)]
  rw [h2, List.reverse_reverse]

/-- Consuming the leading "```json\n" fence: one scanner step, provided the
payload does not begin with whitespace. -/
theorem sub1Aux_fence_step (fuel : Nat) (c : Char) (rest : List Char)
    (hc : pyWs c = false) :
    sub1Aux (fuel + 1) true
        (bt :: bt :: bt :: 'j' :: 's' :: 'o' :: 'n' :: '\n' :: c :: rest) =
      sub1Aux fuel true (c :: rest) := by
  have hcond : (true && (bt == bt) &&
      ((bt :: bt :: 'j' :: 's' :: 'o' :: 'n' :: '\n' :: c :: rest).take 2 ==
        [bt, bt])) = true := rfl
  rw [sub1Aux, if_pos hcond]
  have hft : fenceTail
      ((bt :: bt :: 'j' :: 's' :: 'o' :: 'n' :: '\n' :: c :: rest).drop 2) =
      (c :: rest, true) := by
    show fenceTail ('j' :: 's' :: 'o' :: 'n' :: '\n' :: c :: rest) = (c :: rest, true)
    simp only [fenceTail]
    rw [if_pos (show ('j' :: 's' :: 'o' :: 'n' :: '\n' :: c :: rest).take 4 =
      ['j', 's', 'o', 'n'] from rfl)]
    show (List.dropWhile pyWs ('\n' :: c :: rest),
      (List.takeWhile pyWs ('\n' :: c :: rest)).getLast? == some '\n') = _
    rw [List.dropWhile_cons_of_pos (by decide), List.takeWhile_cons_of_pos (by decide)]
    rw [List.dropWhile_cons_of_neg (by simp [hc]), List.takeWhile_cons_of_neg (by simp [hc])]
    rfl
  rw [hft]

/-- Running the first substitution on a fenced payload (non-whitespace at
both ends, backtick-free) removes both fences but keeps the newline that
precedes the closing fence. -/
theorem sub1Run_fence (j : List Char) (hne : j ≠ [])
    (hh : ∀ c, j.head? = some c → pyWs c = false)
    (hl : ∀ c, j.getLast? = some c → pyWs c = false)
    (hbt : ∀ c ∈ j, c ≠ bt) :
    sub1Aux (j.length + 12) true
        (bt :: bt :: bt :: 'j' :: 's' :: 'o' :: 'n' :: '\n' ::
          (j ++ ['\n', bt, bt, bt])) =
      j ++ ['\n'] := by
  obtain ⟨c, j1, rfl⟩ : ∃ c j1, j = c :: j1 := by
    cases j with
    | nil => exact absurd rfl hne
    | cons c j1 => exact ⟨c, j1, rfl⟩
  have hc : pyWs c = false := hh c rfl
  rw [List.cons_append]
  rw [sub1Aux_fence_step ((c :: j1).length + 11) c (j1 ++ ['\n', bt, bt, bt]) hc]
  rw [← List.cons_append]
  rw [sub1Aux_append_no_bt (c :: j1) true (['\n', bt, bt, bt])
    ((c :: j1).length + 11) (by simp) hbt]
  obtain ⟨x, hx⟩ : ∃ x, (c :: j1).getLast? = some x := by
    cases hgl : (c :: j1).getLast? with
    | none => exact absurd (List.getLast?_eq_none_iff.mp hgl) (by simp)
    | some y => exact ⟨y, rfl⟩
  have hxn : (x == '\n') = false := by
    have := hl x hx
    by_cases hxeq : x = '\n'
    · subst hxeq; exact absurd this (by decide)
    · simpa using hxeq
  rw [hx]
  simp only [Option.map_some', Option.getD_some, hxn]
  rw [sub1Aux_mono ((c :: j1).length + 11) 4 false ['\n', bt, bt, bt]
    (by simp) (by simp)]
  rfl

/-- C9: wrapping a JSON object text in markdown code fences (triple
backticks with the "json" tag) parses identically to the unfenced text.
Stated for any payload accepted by the parser's first tier that is
backtick-free and has no surrounding whitespace — the shape of every JSON
object the fence-stripping regexes are meant for. -/
theorem c9_fence_invariance (s : String) (hne : s.data ≠ [])
    (hh : ∀ c, s.data.head? = some c → pyWs c = false)
    (hl : ∀ c, s.data.getLast? = some c → pyWs c = false)
    (hbt : ∀ c ∈ s.data, c ≠ bt)
    (r : String × Int) (hacc : tier1 s.data = TierOut.ret r) :
    parse_gate_response (fenceJson s) = parse_gate_response s ∧
    parse_gate_response s = Except.ok r := by
  have hstrip : pyStripList s.data = s.data := pyStripList_id s.data hh hl
  have hclean : cleanedList s.data = s.data := by
    unfold cleanedList sub1Run sub2Run
    rw [sub1Aux_no_bt _ _ _ hbt, sub2Aux_no_bt _ _ hbt]
    exact hstrip
  have hdata : (fenceJson s).data =
      bt :: bt :: bt :: 'j' :: 's' :: 'o' :: 'n' :: '\n' ::
        (s.data ++ ['\n', bt, bt, bt]) := by
    show ("```json\n" ++ s ++ "\n```").data = _
    rw [String.data_append, String.data_append, List.append_assoc]
    rfl
  have hstripf : pyStripList ((fenceJson s).data) = (fenceJson s).data := by
    apply pyStripList_id
    · intro c hc
      rw [hdata] at hc
      injection hc with h1
      rw [← h1]
      decide
    · intro c hc
      rw [← List.head?_reverse] at hc
      rw [hdata] at hc
      simp [List.reverse_append] at hc
      rw [← hc]
      decide
  have hlen : ((fenceJson s).data).length = s.data.length + 12 := by
    rw [hdata]; simp
  have hcleanf : cleanedList ((fenceJson s).data) = s.data := by
    unfold cleanedList sub1Run
    rw [hlen, hdata, sub1Run_fence s.data hne hh hl hbt]
    have hbtn : ∀ c ∈ s.data ++ ['\n'], c ≠ bt := by
      intro c hc
      rcases List.mem_append.mp hc with h | h
      · exact hbt c h
      · simp at h; subst h; decide
    unfold sub2Run
    rw [sub2Aux_no_bt _ _ hbtn]
    exact pyStripList_append_newline s.data hne hh hl
  have hEq : tier1 ((fenceJson s).data) = tier1 s.data := by
    unfold tier1
    rw [hcleanf, hclean]
  have hps : parse_gate_response s = Except.ok r := by
    simp only [parse_gate_response, hstrip, hacc]
  have hpf : parse_gate_response (fenceJson s) = Except.ok r := by
    simp only [parse_gate_response, hstripf, hEq, hacc]
  exact ⟨hpf.trans hps.symm, hps⟩

/-- C9 (witness): the fenced and unfenced `(OPEN, 90)` responses parse to
the same result. -/
theorem c9_fence_invariance_witness :
    parse_gate_response (fenceJson "\x7b\"status\": \"OPEN\", \"confidence\": 90\x7d") =
      parse_gate_response "\x7b\"status\": \"OPEN\", \"confidence\": 90\x7d" ∧
    parse_gate_response "\x7b\"status\": \"OPEN\", \"confidence\": 90\x7d" =
      Except.ok ("open", 90) :=
  c9_fence_invariance "\x7b\"status\": \"OPEN\", \"confidence\": 90\x7d"
    (by decide)
    (fun c hc => by injection hc with h1; rw [← h1]; decide)
    (fun c hc => by injection hc with h1; rw [← h1]; decide)
    (by decide) ("open", 90) rfl
